import Mathlib

/-!
# Verification of `workbenchVoiceRecognitionService.ts`

A shallow embedding of the voice-capture pipeline in
`src/vs/workbench/services/voiceRecognition/electron-sandbox/workbenchVoiceRecognitionService.ts`.

The file under analysis wires a single-shot, cancellable pipeline:
`transcribe(cancellation)` creates an `Emitter<string>`, registers
`onDidTranscribe.dispose()` on the cancellation token, then fire-and-forgets
`doTranscribe` inside a progress wrapper and synchronously returns the
emitter's event.  `doTranscribe` awaits `getUserMedia`, checks the token,
builds an `AudioContext` + media-stream source, registers a teardown listener
on the token (stop tracks, disconnect source, close context, complete the
recording promise), awaits `audioWorklet.addModule`, checks the token, creates
the worklet node, awaits `createRawConnection` inside `start` (which registers
a second listener posting a stop message and disconnecting the node, then
posts the start message), checks the token, and finally connects the source
and waits on the recording promise.

The embedding is an executable trace semantics.  JavaScript is
single-threaded, so the externally supplied cancellation token can only
transition while the routine is suspended at an `await`; the type
`CancelPoint` enumerates those suspension windows (plus "already cancelled
before the call" and "never").  The token is one-shot: when it fires, the
listeners registered so far run in registration order; a listener registered
on an already-cancelled token runs on a later event-loop turn (the `setTimeout`
shortcut of the cancellation utility), modelled as a `pending` queue flushed at
the next suspension point or at routine exit.  The token and emitter utilities
live outside the analysed file; their one-shot / dispose semantics are taken
from the specification of the cancellation handle (one transition
not-cancelled → cancelled, teardown registered once, fires at most once).
-/

namespace Voice

/-- Observable actions of one transcription session, in the order the code
performs them.  `check n b` records the `token.isCancellationRequested` test
number `n` (1: after `getUserMedia`, 2: after `addModule`, 3: after
`start`) together with the flag value `b` it observed. -/
inductive Action where
  | reportProgress
  | getUserMedia
  | check (n : Nat) (cancelled : Bool)
  | createAudioContext
  | createMediaStreamSource
  | addWorkletModule
  | createWorkletNode
  | createRawConnection
  | postStartMessage
  | connectSource
  | reportRecording
  | disposeEmitter
  | stopTrack
  | disconnectSource
  | closeAudioContext
  | completeRecording
  | postStopMessage
  | disconnectWorkletNode
  deriving DecidableEq, Repr

/-- The suspension window in which the externally supplied cancellation
token transitions to cancelled (JavaScript is single-threaded, so the
transition can only be observed across an `await`), or `never`. -/
inductive CancelPoint where
  | beforeCall
  | duringGetUserMedia
  | duringAddModule
  | duringStart
  | afterSetup
  | never
  deriving DecidableEq, Fintype, Repr

/-- The three awaited operations of setup that can reject (microphone
permission denied / device unavailable, worklet module load failure,
side-channel connection failure). -/
inductive Step where
  | getUserMedia
  | addModule
  | createRawConnection
  deriving DecidableEq, Fintype, Repr

/-- Modelled from the spec: the cancellation handle and the session state
around it.  `cancelled` is the one-transition flag; `listeners` are the
callbacks registered with `onCancellationRequested` before cancellation, in
registration order, each a list of the actions its body performs; `pending`
holds the bodies of listeners registered after cancellation, which the
cancellation utility defers to a later event-loop turn; `log` is the trace;
`err` is the rejection, if any, that escaped the async setup routine. -/
structure St where
  cancelled : Bool
  listeners : List (List Action)
  pending : List Action
  log : List Action
  err : Option Step
  deriving DecidableEq, Repr

/-- The session state at the start of `transcribe`: no listeners, empty
trace; the token is already cancelled exactly when the caller cancelled
before the call. -/
def St.init (c : CancelPoint) : St :=
  { cancelled := c = CancelPoint.beforeCall
    listeners := []
    pending := []
    log := []
    err := none }

/-- Perform a synchronous action: append it to the trace. -/
def St.emit (st : St) (a : Action) : St :=
  { st with log := st.log ++ [a] }

/-- `token.onCancellationRequested(l)`: before cancellation the listener is
appended to the listener list; on an already-cancelled token its body is
deferred to the pending queue (it runs on a later event-loop turn). -/
def St.reg (st : St) (l : List Action) : St :=
  if st.cancelled then { st with pending := st.pending ++ l }
  else { st with listeners := st.listeners ++ [l] }

/-- A suspension point (`await`).  The event loop turns: deferred listener
bodies run first; then, if the token transitions inside this window (and only
once, the handle being one-shot), every listener registered so far fires in
registration order. -/
def St.susp (st : St) (c here : CancelPoint) : St :=
  let st := { st with log := st.log ++ st.pending, pending := [] }
  if c = here ∧ ¬ st.cancelled then
    { st with cancelled := true, log := st.log ++ st.listeners.flatten }
  else st

/-- End of the async routine: any still-deferred listener bodies run on the
next event-loop turn. -/
def St.finish (st : St) : St :=
  { st with log := st.log ++ st.pending, pending := [] }

/-- The awaited operation `s` rejects: the error escapes the async routine
(nothing in `doTranscribe` or `start` catches it). -/
def St.fail (st : St) (s : Step) : St :=
  { st.finish with err := some s }

/-- Body of the `token.onCancellationRequested` teardown listener registered
in `doTranscribe`: stop every microphone track, disconnect the source node,
close the audio context, complete the recording promise — in that order. -/
def teardownActions : List Action :=
  [Action.stopTrack, Action.disconnectSource, Action.closeAudioContext,
   Action.completeRecording]

/-- Body of the `token.onCancellationRequested` listener registered in
`VoiceTranscriptionWorkletNode.start`: post the stop message to the worklet
and disconnect the node. -/
def workletStopActions : List Action :=
  [Action.postStopMessage, Action.disconnectWorkletNode]

/-- One run of the pipeline `transcribe` → `doTranscribe` (which inlines
`VoiceTranscriptionWorkletNode.start`), as a function of the cancellation
window `c` and of which awaited step, if any, rejects (`f`).  Each line
mirrors a line of the source. -/
def runPipeline (c : CancelPoint) (f : Option Step) : St :=
  -- transcribe: cancellation.onCancellationRequested(() => onDidTranscribe.dispose())
  let st := (St.init c).reg [Action.disposeEmitter]
  -- doTranscribe, inside progressService.withProgress:
  -- progress.report("Getting microphone ready...")
  let st := st.emit Action.reportProgress
  -- await navigator.mediaDevices.getUserMedia({...16kHz, 16-bit, mono...})
  let st := st.emit Action.getUserMedia
  let st := st.susp c CancelPoint.duringGetUserMedia
  if f = some Step.getUserMedia then st.fail Step.getUserMedia else
  -- if (token.isCancellationRequested) return
  let st := st.emit (Action.check 1 st.cancelled)
  if st.cancelled then st.finish else
  -- new AudioContext({sampleRate, latencyHint: 'interactive'})
  let st := st.emit Action.createAudioContext
  -- audioContext.createMediaStreamSource(microphoneDevice)
  let st := st.emit Action.createMediaStreamSource
  -- token.onCancellationRequested(() => { stop tracks; disconnect; close; complete })
  let st := st.reg teardownActions
  -- await audioContext.audioWorklet.addModule(...)
  let st := st.emit Action.addWorkletModule
  let st := st.susp c CancelPoint.duringAddModule
  if f = some Step.addModule then st.fail Step.addModule else
  -- if (token.isCancellationRequested) return
  let st := st.emit (Action.check 2 st.cancelled)
  if st.cancelled then st.finish else
  -- new VoiceTranscriptionWorkletNode(audioContext, {...}, onDidTranscribe, sharedProcessService)
  let st := st.emit Action.createWorkletNode
  -- start: await this.sharedProcessService.createRawConnection()
  let st := st.emit Action.createRawConnection
  let st := st.susp c CancelPoint.duringStart
  if f = some Step.createRawConnection then st.fail Step.createRawConnection else
  -- start: token.onCancellationRequested(() => { postMessage stop; disconnect })
  let st := st.reg workletStopActions
  -- start: this.port.postMessage('vscode:startVoiceTranscription', [connection])
  let st := st.emit Action.postStartMessage
  -- if (token.isCancellationRequested) return
  let st := st.emit (Action.check 3 st.cancelled)
  if st.cancelled then st.finish else
  -- microphoneSource.connect(voiceTranscriptionTarget)
  let st := st.emit Action.connectSource
  -- progress.report("Recording from microphone...")
  let st := st.emit Action.reportRecording
  -- return recordingDone.p  (awaited until cancellation completes it)
  let st := st.susp c CancelPoint.afterSetup
  st.finish

/-- A payload arriving on the worklet node's message port: either a string
(`typeof e.data === 'string'`) or some non-string value. -/
inductive Data where
  | str (s : String)
  | blob (n : Nat)
  deriving DecidableEq, Repr

/-- `registerListeners`: the `port.onmessage` handler fires the emitter with
`e.data` exactly when `typeof e.data === 'string'`; every other payload is
ignored. -/
def onMessage : Data → Option String
  | Data.str s => some s
  | Data.blob _ => none

/-- Events seen by one session's output emitter over time: a port message
arriving, or the cancellation handle firing (upon which `transcribe` runs
`onDidTranscribe.dispose()`). -/
inductive SessionEvent where
  | message (d : Data)
  | cancel
  deriving DecidableEq, Repr

/-- Modelled from the spec: delivery on the session's output stream.  The
Boolean is the emitter's disposed state — `transcribe` disposes the emitter
when the (one-shot) cancellation handle fires, and per the stream requirement
("stream must stop producing after cancellation") a fire on a disposed
emitter delivers nothing to subscribers. -/
def relayFrom (disposed : Bool) : List SessionEvent → List String
  | [] => []
  | SessionEvent.message d :: rest =>
      (match onMessage d with
       | some s => if disposed then [] else [s]
       | none => []) ++ relayFrom disposed rest
  | SessionEvent.cancel :: rest => relayFrom true rest

/-- The string fragments a subscriber of the session's output stream
observes, given the sequence of port messages and cancellation. -/
def relayRun (evs : List SessionEvent) : List String := relayFrom false evs

/-- The fragments a consumer observes from a finished setup run: the worklet
produces transcription messages only after it has been handed the side
channel by the start command, so a run whose trace never posted the start
message delivers nothing. -/
def consumerFragments (st : St) (msgs : List Data) : List String :=
  if st.log.contains Action.postStartMessage then
    relayRun (msgs.map SessionEvent.message)
  else []

/-- Number of fresh per-session resources a run allocates: the output
emitter, plus the microphone stream, audio context, media-stream source,
worklet node and raw connection when the corresponding step ran. -/
def allocCount (st : St) : Nat :=
  1 + st.log.count Action.getUserMedia
    + st.log.count Action.createAudioContext
    + st.log.count Action.createMediaStreamSource
    + st.log.count Action.createWorkletNode
    + st.log.count Action.createRawConnection

/-- The ids of the resources a session owns when its allocator starts at
`base`: `base` is the emitter itself, the rest follow. -/
def resourceIds (base : Nat) (st : St) : List Nat :=
  List.range' base (allocCount st)

/-- One `transcribe` call as seen by its caller: the emitter's event handle,
returned synchronously, plus the outcome of the fire-and-forget setup. -/
structure Session where
  event : Nat
  outcome : St
  deriving DecidableEq, Repr

/-- A `transcribe` call whose fresh allocations start at `base`: the emitter
(`new Emitter<string>()`) is created first and its event returned; the setup
runs asynchronously. -/
def transcribeFrom (base : Nat) (c : CancelPoint) (f : Option Step) : Session :=
  { event := base, outcome := runPipeline c f }

/-- `transcribe(cancellation)` for a single session. -/
def transcribe (c : CancelPoint) (f : Option Step) : Session :=
  transcribeFrom 0 c f

/-- Two `transcribe` calls with independent cancellation tokens: each creates
its own emitter and resources; the second session's allocations start after
everything the first allocated. -/
def transcribeTwice (c₁ c₂ : CancelPoint) (f₁ f₂ : Option Step) :
    Session × Session :=
  let s₁ := transcribeFrom 0 c₁ f₁
  let s₂ := transcribeFrom (allocCount s₁.outcome) c₂ f₂
  (s₁, s₂)

/-! ## Helper lemmas about the relay -/

/-- A disposed emitter delivers nothing, whatever still arrives on the port. -/
theorem relayFrom_disposed (evs : List SessionEvent) : relayFrom true evs = [] := by
  induction evs with
  | nil => rfl
  | cons e rest ih =>
    cases e with
    | message d =>
      cases h : onMessage d <;> simp [relayFrom, h, ih]
    | cancel => simpa [relayFrom] using ih

/-- Delivery up to a cancellation event is unaffected by anything after it:
once the handle fires the emitter is disposed and nothing more is delivered. -/
theorem relayFrom_append_cancel (disposed : Bool) (pre post : List SessionEvent) :
    relayFrom disposed (pre ++ SessionEvent.cancel :: post) = relayFrom disposed pre := by
  induction pre generalizing disposed with
  | nil => simp [relayFrom, relayFrom_disposed]
  | cons e rest ih =>
    cases e with
    | message d => simp [relayFrom, ih]
    | cancel => simp [relayFrom, ih]

/-- With no cancellation, the stream delivers exactly the string-typed
payloads, unchanged and in arrival order. -/
theorem relayFrom_messages (msgs : List Data) :
    relayFrom false (msgs.map SessionEvent.message) = msgs.filterMap onMessage := by
  induction msgs with
  | nil => rfl
  | cons d rest ih =>
    cases h : onMessage d <;> simp [relayFrom, h, ih]

/-- Is this trace entry a cancellation check that observed the flag set? -/
def isTrueCheck : Action → Bool
  | Action.check _ true => true
  | _ => false

/-- Setup-side actions: the steps that acquire resources and build the
pipeline, as opposed to teardown and bookkeeping. -/
def isSetupAction : Action → Bool
  | Action.getUserMedia => true
  | Action.createAudioContext => true
  | Action.createMediaStreamSource => true
  | Action.addWorkletModule => true
  | Action.createWorkletNode => true
  | Action.createRawConnection => true
  | Action.postStartMessage => true
  | Action.connectSource => true
  | Action.reportRecording => true
  | _ => false

/-! ## Claims -/

/-- C1: the claim says that for every cancellation timing the teardown
actions (stop every microphone track, disconnect the source node, close the
audio context) execute exactly once, never zero times.  The code violates
this: when cancellation is requested while the `getUserMedia` promise is
pending, the routine returns at the first cancellation check before the
teardown listener is ever registered, so no teardown action runs at all —
the acquired microphone tracks are never stopped, contradicting the
interface's own doc comment that the token serves "to stop transcribing and
listening to the microphone".  This theorem evaluates the code at that
failing input: the microphone is acquired, yet every teardown action occurs
zero times. -/
theorem c1_cancel_during_mic_acquisition_runs_no_teardown :
    Action.getUserMedia ∈ (runPipeline CancelPoint.duringGetUserMedia none).log ∧
    (runPipeline CancelPoint.duringGetUserMedia none).log.count Action.stopTrack = 0 ∧
    (runPipeline CancelPoint.duringGetUserMedia none).log.count Action.disconnectSource = 0 ∧
    (runPipeline CancelPoint.duringGetUserMedia none).log.count Action.closeAudioContext = 0 := by
  decide

/-- C2 counterexample: the claim says that when the handle is already
cancelled at the `transcribe` call, no microphone request is made.  But
`doTranscribe` calls `getUserMedia` unconditionally, before its first
cancellation check, so the trace of the pre-cancelled run contains the
microphone request. -/
theorem c2_precancelled_still_requests_microphone :
    Action.getUserMedia ∈ (runPipeline CancelPoint.beforeCall none).log := by
  decide

/-- C2 amended: if the handle is already cancelled when `transcribe` is
called, the consumer observes zero fragments and setup aborts without
throwing at the first cancellation check; the microphone request, however,
is still made (and resolves) before that check, and no audio graph, worklet
node or side-channel connection is ever created. -/
theorem c2_precancelled_aborts_after_mic_request :
    (runPipeline CancelPoint.beforeCall none).err = none ∧
    Action.getUserMedia ∈ (runPipeline CancelPoint.beforeCall none).log ∧
    Action.createAudioContext ∉ (runPipeline CancelPoint.beforeCall none).log ∧
    Action.createWorkletNode ∉ (runPipeline CancelPoint.beforeCall none).log ∧
    Action.createRawConnection ∉ (runPipeline CancelPoint.beforeCall none).log ∧
    (∀ evs : List SessionEvent, relayRun (SessionEvent.cancel :: evs) = []) := by
  refine ⟨by decide, by decide, by decide, by decide, by decide, ?_⟩
  intro evs
  exact relayFrom_disposed evs

/-- C3: after each asynchronous suspension point of setup (microphone
acquisition, worklet module load, side-channel connection open) the
cancellation flag is checked, and whenever a check observes the flag set the
session performs no further setup step: no audio context after check 1, no
worklet node after check 2, no source connection after check 3, and nothing
from the true check onwards is a setup action. -/
theorem c3_flag_checked_after_every_suspension :
    ∀ c : CancelPoint,
      (∃ b, Action.check 1 b ∈ (runPipeline c none).log) ∧
      (Action.addWorkletModule ∈ (runPipeline c none).log →
        ∃ b, Action.check 2 b ∈ (runPipeline c none).log) ∧
      (Action.createRawConnection ∈ (runPipeline c none).log →
        ∃ b, Action.check 3 b ∈ (runPipeline c none).log) ∧
      (Action.check 1 true ∈ (runPipeline c none).log →
        Action.createAudioContext ∉ (runPipeline c none).log) ∧
      (Action.check 2 true ∈ (runPipeline c none).log →
        Action.createWorkletNode ∉ (runPipeline c none).log) ∧
      (Action.check 3 true ∈ (runPipeline c none).log →
        Action.connectSource ∉ (runPipeline c none).log) ∧
      ((runPipeline c none).log.dropWhile (fun a => ! isTrueCheck a)).all
        (fun a => ! isSetupAction a) = true := by
  decide

/-- C3 witness: at the concrete timing "cancelled while the module loads",
check 2 observes the flag set and indeed no worklet node is created. -/
theorem c3_flag_checked_witness :
    Action.check 2 true ∈ (runPipeline CancelPoint.duringAddModule none).log ∧
    Action.createWorkletNode ∉ (runPipeline CancelPoint.duringAddModule none).log :=
  ⟨by decide,
   (c3_flag_checked_after_every_suspension CancelPoint.duringAddModule).2.2.2.2.1 (by decide)⟩

/-- C6: if cancellation is requested after the `transcribe` call but while
the microphone-acquisition promise is pending, no audio context, no
media-stream source, no worklet node and no raw side-channel connection are
created for that session. -/
theorem c6_cancel_before_mic_resolves_builds_nothing :
    Action.createAudioContext ∉ (runPipeline CancelPoint.duringGetUserMedia none).log ∧
    Action.createMediaStreamSource ∉ (runPipeline CancelPoint.duringGetUserMedia none).log ∧
    Action.createWorkletNode ∉ (runPipeline CancelPoint.duringGetUserMedia none).log ∧
    Action.createRawConnection ∉ (runPipeline CancelPoint.duringGetUserMedia none).log := by
  decide

/-- C4: the stream returned by `transcribe` terminates once cancellation is
requested: whatever port messages arrive after the cancellation handle
fires, the subscriber observes exactly the fragments delivered before it —
no further string fragment is ever delivered. -/
theorem c4_stream_terminates_on_cancellation :
    ∀ pre post : List SessionEvent,
      relayRun (pre ++ SessionEvent.cancel :: post) = relayRun pre := by
  intro pre post
  exact relayFrom_append_cancel false pre post

/-- C5: a message from the processing unit's channel is re-emitted on the
session's output stream, unchanged, exactly when its payload is a string;
non-string messages produce zero output events; fragments keep arrival
order, so a unit emitting "hello" then "world" with no cancellation yields
exactly those two fragments in that order. -/
theorem c5_string_messages_forwarded_in_order :
    (∀ msgs : List Data,
      relayRun (msgs.map SessionEvent.message) = msgs.filterMap onMessage) ∧
    (∀ s, onMessage (Data.str s) = some s) ∧
    (∀ n, onMessage (Data.blob n) = none) ∧
    relayRun [SessionEvent.message (Data.str "hello"),
              SessionEvent.message (Data.str "world")] = ["hello", "world"] := by
  refine ⟨fun msgs => relayFrom_messages msgs, fun s => rfl, fun n => rfl, rfl⟩

/-- C7: whenever teardown runs, its actions occur in the fixed order stop
tracks → disconnect source → close context → complete the recording promise,
each at most once (the one-shot handle makes them idempotent), all-or-none
(unconditionally: one runs exactly when the others do), and the stop signal
to the processing unit, when the unit exists, follows the completion
signal — for every cancellation timing and every failing step. -/
theorem c7_teardown_fixed_order :
    ∀ (c : CancelPoint) (f : Option Step),
      ((runPipeline c f).log.count Action.stopTrack ≤ 1 ∧
       (runPipeline c f).log.count Action.disconnectSource ≤ 1 ∧
       (runPipeline c f).log.count Action.closeAudioContext ≤ 1 ∧
       (runPipeline c f).log.count Action.completeRecording ≤ 1 ∧
       (runPipeline c f).log.count Action.postStopMessage ≤ 1) ∧
      ((Action.stopTrack ∈ (runPipeline c f).log ↔
        Action.disconnectSource ∈ (runPipeline c f).log) ∧
       (Action.stopTrack ∈ (runPipeline c f).log ↔
        Action.closeAudioContext ∈ (runPipeline c f).log) ∧
       (Action.stopTrack ∈ (runPipeline c f).log ↔
        Action.completeRecording ∈ (runPipeline c f).log)) ∧
      (Action.stopTrack ∈ (runPipeline c f).log →
        (runPipeline c f).log.indexOf Action.stopTrack <
          (runPipeline c f).log.indexOf Action.disconnectSource ∧
        (runPipeline c f).log.indexOf Action.disconnectSource <
          (runPipeline c f).log.indexOf Action.closeAudioContext ∧
        (runPipeline c f).log.indexOf Action.closeAudioContext <
          (runPipeline c f).log.indexOf Action.completeRecording) ∧
      (Action.postStopMessage ∈ (runPipeline c f).log →
        (runPipeline c f).log.indexOf Action.completeRecording <
          (runPipeline c f).log.indexOf Action.postStopMessage ∧
        (runPipeline c f).log.indexOf Action.postStopMessage <
          (runPipeline c f).log.indexOf Action.disconnectWorkletNode) := by
  decide

/-- C7 witness: with cancellation during recording and no failing step,
teardown runs and the theorem yields the stop-tracks-before-disconnect
ordering at that concrete input. -/
theorem c7_teardown_fixed_order_witness :
    Action.stopTrack ∈ (runPipeline CancelPoint.afterSetup none).log ∧
    (runPipeline CancelPoint.afterSetup none).log.indexOf Action.stopTrack <
      (runPipeline CancelPoint.afterSetup none).log.indexOf Action.disconnectSource :=
  ⟨by decide,
   ((c7_teardown_fixed_order CancelPoint.afterSetup none).2.2.1 (by decide)).1⟩

/-- C8: a rejection of any awaited setup step (microphone permission denied
or device unavailable, worklet module load failure, side-channel failure) is
not caught inside the setup routine: it escapes as the routine's outcome, to
be surfaced by the hosting progress wrapper.  The consumer's stream carries
no error channel and the worklet was never handed the side channel, so
whatever the unit might have produced, the subscriber observes no fragment —
the returned stream simply never emits. -/
theorem c8_setup_rejection_propagates_stream_never_emits :
    ∀ (s : Step) (msgs : List Data),
      (runPipeline CancelPoint.never (some s)).err = some s ∧
      Action.postStartMessage ∉ (runPipeline CancelPoint.never (some s)).log ∧
      consumerFragments (runPipeline CancelPoint.never (some s)) msgs = [] := by
  intro s msgs
  cases s <;> exact ⟨rfl, by decide, rfl⟩

/-- C9: two `transcribe` calls with independent cancellation handles share
no resource state: the two sessions' resource ids (emitter, microphone
stream, audio context, source, worklet node, connection) are disjoint, their
event handles differ, and each session's entire outcome is a function of its
own handle and its own failures alone — cancelling or failing one leaves the
other's outcome literally unchanged. -/
theorem c9_two_sessions_are_independent :
    ∀ (c₁ c₂ : CancelPoint) (f₁ f₂ : Option Step),
      List.Disjoint
        (resourceIds (transcribeTwice c₁ c₂ f₁ f₂).1.event
          (transcribeTwice c₁ c₂ f₁ f₂).1.outcome)
        (resourceIds (transcribeTwice c₁ c₂ f₁ f₂).2.event
          (transcribeTwice c₁ c₂ f₁ f₂).2.outcome) ∧
      (transcribeTwice c₁ c₂ f₁ f₂).1.event ≠ (transcribeTwice c₁ c₂ f₁ f₂).2.event ∧
      (∀ c₁' f₁', (transcribeTwice c₁ c₂ f₁ f₂).2.outcome =
        (transcribeTwice c₁' c₂ f₁' f₂).2.outcome) ∧
      (∀ c₂' f₂', (transcribeTwice c₁ c₂ f₁ f₂).1.outcome =
        (transcribeTwice c₁ c₂' f₁ f₂').1.outcome) := by
  intro c₁ c₂ f₁ f₂
  refine ⟨?_, ?_, fun c₁' f₁' => rfl, fun c₂' f₂' => rfl⟩
  · intro x hx hx'
    rw [transcribeTwice] at hx hx'
    simp only [transcribeFrom, resourceIds] at hx hx'
    rw [List.mem_range'_1] at hx hx'
    omega
  · rw [transcribeTwice]
    simp only [transcribeFrom, allocCount]
    omega

/-- C10: `transcribe` synchronously returns the emitter's event handle
created before any asynchronous step, for every cancellation timing and
every setup failure — the handle the caller gets is always the same, and a
setup rejection surfaces only in the asynchronous outcome, never in the
returned value, so no rejection ever reaches the `transcribe` caller. -/
theorem c10_transcribe_returns_synchronously :
    (∀ (c : CancelPoint) (f : Option Step),
      (transcribe c f).event = (transcribe CancelPoint.never none).event) ∧
    (∀ s : Step,
      (transcribe CancelPoint.never (some s)).outcome.err = some s ∧
      (transcribe CancelPoint.never (some s)).event =
        (transcribe CancelPoint.never none).event) := by
  refine ⟨fun c f => rfl, fun s => ⟨?_, rfl⟩⟩
  cases s <;> rfl

end Voice
